import Mathlib

/-!
Shallow embedding of the kubectl-rescale plugin (Go, package `cmd`).

The program parses one positional argument naming a Deployment or
StatefulSet, resolves the kind when it is not given, then runs a scale
cycle: fetch the workload, record `originalReplicas` from its status,
update the scale to 0, poll until the observed replica count is 0,
update the scale back to `originalReplicas`, poll again with a fixed
cap of 60 attempts, and report success.

The Kubernetes API is modelled as an environment (`SideEnv` per workload
kind) giving the response of each call the program makes: the initial
`Get`, the `GetScale`/`UpdateScale` pair inside each scale update, and a
per-attempt schedule for the `GetScale` calls of each polling loop.  The
cluster's desired replica count is threaded through the interpreter; the
observed count is chosen freely by the environment.  Go `panic` is a
distinct outcome (`CycleRes.panicked`) from a returned error
(`CycleRes.retErr`).  Replica counts are Go int32 values on which the
program only copies and compares, so they are embedded as `Int`.
-/

namespace KubectlRescale

/-- Workload kinds, as in `o.targetKind` ("deployment" / "statefulset" /
"unknown"). -/
inductive Kind where
  | deployment
  | statefulset
  | unknown
deriving DecidableEq

/-- A Deployment or StatefulSet as returned by the initial `Get`:
`Spec.Replicas` (desired) and `Status.Replicas` (observed). -/
structure Workload where
  specReplicas : Int
  statusReplicas : Int
deriving DecidableEq

/-- Error values the program can carry, either returned or panicked. -/
inductive Err where
  | noContext
  | invalidMaxWait
  | badArgs
  | notFound
  | unknownKind
  | apiError (msg : String)
  | waitTimeout (targetReplicas : Int)
  | nilDeref
deriving DecidableEq

/-- Outcome of a run: normal return, error returned to the caller, or a
Go `panic` (abnormal termination). -/
inductive CycleRes where
  | ok
  | retErr (e : Err)
  | panicked (e : Err)
deriving DecidableEq

/-- One call issued to the Workload Control API. -/
inductive Call where
  | getWorkload (k : Kind)
  | getScale (k : Kind)
  | updateScale (k : Kind) (replicas : Int)
  | pollGetScale (k : Kind)
deriving DecidableEq

/-- Response of the API to a `Get` of a workload, as distinguished by
`GetDeployment` / `GetStatefulSet`: found, IsNotFound, a StatusError
(printed and returned), or any other error (panics inside the getter). -/
inductive GetResp where
  | found (wl : Workload)
  | notFound
  | statusError (msg : String)
  | otherError (msg : String)
deriving DecidableEq

/-- Environment for one workload kind: the `Get` response, the errors (if
any) of the `GetScale`/`UpdateScale` pair inside the first and second
`Update*Scale`, and the response schedules of the `GetScale` calls of the
two polling loops.  A poll response is the Go pair (scale, err): `none`
in the first component models a nil scale pointer, the second component
is the error value the loop discards. -/
structure SideEnv where
  getResp : GetResp
  upd1GetErr : Option String
  upd1PutErr : Option String
  upd2GetErr : Option String
  upd2PutErr : Option String
  poll1 : Nat → Option Int × Option String
  poll2 : Nat → Option Int × Option String

/-- Environment of a whole run: one side per kind (same name, same
namespace). -/
structure Env where
  dep : SideEnv
  sts : SideEnv

/-- Result of a run: outcome, the trace of API calls issued, and the
cluster's desired replica count at the end (`none` when the workload was
never found, so its scale was never touched). -/
structure RunOut where
  res : CycleRes
  trace : List Call
  finalDesired : Option Int
deriving DecidableEq

/-! ## Argument parsing (`Complete`) -/

/-- `strings.HasPrefix s p` on the character list embedding of Go
strings. -/
def startsWith : List Char → List Char → Bool
  | _, [] => true
  | [], _ :: _ => false
  | c :: s, p :: ps => if p = c then startsWith s ps else false

/-- `strings.TrimPrefix s p`: drop the leading `p` when present,
otherwise return `s` unchanged. -/
def trimPre (s p : List Char) : List Char :=
  if startsWith s p then s.drop p.length else s

def deploymentSlash : List Char := ['d','e','p','l','o','y','m','e','n','t','/']

def deploySlash : List Char := ['d','e','p','l','o','y','/']

def statefulsetSlash : List Char := ['s','t','a','t','e','f','u','l','s','e','t','/']

def stsSlash : List Char := ['s','t','s','/']

/-- The target extracted from the positional argument. -/
structure Target where
  targetName : List Char
  targetKind : Kind
deriving DecidableEq

/-- The prefix-stripping chain of `Complete`: `deployment/`, `deploy/`,
`statefulset/`, `sts/` in that order, else kind "unknown" with the whole
argument as the name. -/
def parseTarget (a : List Char) : Target :=
  if startsWith a deploymentSlash then ⟨trimPre a deploymentSlash, Kind.deployment⟩
  else if startsWith a deploySlash then ⟨trimPre a deploySlash, Kind.deployment⟩
  else if startsWith a statefulsetSlash then ⟨trimPre a statefulsetSlash, Kind.statefulset⟩
  else if startsWith a stsSlash then ⟨trimPre a stsSlash, Kind.statefulset⟩
  else ⟨a, Kind.unknown⟩

/-- `Complete`: context check, then the `maxWaitSeconds <= 0` validation,
then the single-argument check, then prefix parsing.  The kubeconfig
loading is an external adapter, summarised by `contextOk`. -/
def Complete (contextOk : Bool) (maxWaitSeconds : Int) (args : List (List Char)) :
    Except Err Target :=
  if contextOk = false then Except.error Err.noContext
  else if maxWaitSeconds ≤ 0 then Except.error Err.invalidMaxWait
  else
    match args with
    | [a] => Except.ok (parseTarget a)
    | _ => Except.error Err.badArgs

/-! ## The polling loop (`WaitForDeploymentReplicas` / `WaitForStatefulSetReplicas`)

Both Go functions are textually identical apart from the API group they
poll; the poll schedule abstracts that, so one function embeds both.
-/

/-- Outcome of a polling loop: observed count reached the target, the
loop dereferenced a nil scale (runtime panic), or the tries were
exhausted (the loop returns its timeout error). -/
inductive WaitRes where
  | converged
  | nilPanic
  | timeout
deriving DecidableEq

/-- The loop `for i := 0; i < tries; i++ { scale, _ := GetScale(...); if
scale.Status.Replicas == replicas { return nil }; sleep }`.  `i` is the
index of the next poll in the schedule, the second argument of the
recursion is the number of tries left; the returned `Nat` is the number
of `GetScale` calls issued.  The error component of each poll response
is discarded, exactly as the Go `_` does. -/
def WaitForReplicas (poll : Nat → Option Int × Option String) (target : Int) :
    Nat → Nat → WaitRes × Nat
  | _, 0 => (WaitRes.timeout, 0)
  | i, n + 1 =>
    match (poll i).fst with
    | none => (WaitRes.nilPanic, 1)
    | some obs =>
      if obs = target then (WaitRes.converged, 1)
      else
        match WaitForReplicas poll target (i + 1) n with
        | (r, p) => (r, p + 1)

/-! ## Scale updates (`UpdateDeploymentScale` / `UpdateStatefulSetScale`) -/

/-- `Update*Scale`: `GetScale`, set `scale.Spec.Replicas = replicas`,
`UpdateScale`.  Returns the error (if any) and the calls issued; the
new desired count is `replicas` exactly when both calls succeed, which
the call site applies. -/
def UpdateWorkloadScale (k : Kind) (getErr putErr : Option String) (replicas : Int) :
    Option String × List Call :=
  match getErr with
  | some m => (some m, [Call.getScale k])
  | none =>
    match putErr with
    | some m => (some m, [Call.getScale k, Call.updateScale k replicas])
    | none => (none, [Call.getScale k, Call.updateScale k replicas])

/-- `List.replicate` of poll calls, for traces. -/
def pollCalls (k : Kind) (n : Nat) : List Call :=
  List.replicate n (Call.pollGetScale k)

/-! ## The scale cycle (`ScaleDeployment` / `ScaleStatefulSet`)

The two Go functions are textually identical apart from kind names; the
shared body is `scaleCycle`, tagged with the kind for the trace.
-/

/-- The body of the cycle after the workload was found:
`originalReplicas := wl.Status.Replicas`; scale to 0 (errors panic);
wait for 0 with `maxWaitSeconds` tries (timeout panics); scale back to
`originalReplicas` (errors panic); wait with a fixed 60 tries (timeout
panics); return nil. -/
def cycleFound (k : Kind) (e : SideEnv) (wl : Workload) (maxWaitSeconds : Nat) : RunOut :=
  match UpdateWorkloadScale k e.upd1GetErr e.upd1PutErr 0 with
  | (some m, tr1) =>
    ⟨CycleRes.panicked (Err.apiError m), Call.getWorkload k :: tr1, some wl.specReplicas⟩
  | (none, tr1) =>
    match WaitForReplicas e.poll1 0 0 maxWaitSeconds with
    | (WaitRes.nilPanic, p1) =>
      ⟨CycleRes.panicked Err.nilDeref,
        Call.getWorkload k :: tr1 ++ pollCalls k p1, some 0⟩
    | (WaitRes.timeout, p1) =>
      ⟨CycleRes.panicked (Err.waitTimeout 0),
        Call.getWorkload k :: tr1 ++ pollCalls k p1, some 0⟩
    | (WaitRes.converged, p1) =>
      match UpdateWorkloadScale k e.upd2GetErr e.upd2PutErr wl.statusReplicas with
      | (some m, tr2) =>
        ⟨CycleRes.panicked (Err.apiError m),
          Call.getWorkload k :: tr1 ++ pollCalls k p1 ++ tr2, some 0⟩
      | (none, tr2) =>
        match WaitForReplicas e.poll2 wl.statusReplicas 0 60 with
        | (WaitRes.nilPanic, p2) =>
          ⟨CycleRes.panicked Err.nilDeref,
            Call.getWorkload k :: tr1 ++ pollCalls k p1 ++ tr2 ++ pollCalls k p2,
            some wl.statusReplicas⟩
        | (WaitRes.timeout, p2) =>
          ⟨CycleRes.panicked (Err.waitTimeout wl.statusReplicas),
            Call.getWorkload k :: tr1 ++ pollCalls k p1 ++ tr2 ++ pollCalls k p2,
            some wl.statusReplicas⟩
        | (WaitRes.converged, p2) =>
          ⟨CycleRes.ok,
            Call.getWorkload k :: tr1 ++ pollCalls k p1 ++ tr2 ++ pollCalls k p2,
            some wl.statusReplicas⟩

/-- The full cycle: `Get*` first.  NotFound and StatusError responses are
returned to the caller; any other `Get` error panics inside the getter. -/
def scaleCycle (k : Kind) (e : SideEnv) (maxWaitSeconds : Nat) : RunOut :=
  match e.getResp with
  | GetResp.notFound =>
    ⟨CycleRes.retErr Err.notFound, [Call.getWorkload k], none⟩
  | GetResp.statusError m =>
    ⟨CycleRes.retErr (Err.apiError m), [Call.getWorkload k], none⟩
  | GetResp.otherError m =>
    ⟨CycleRes.panicked (Err.apiError m), [Call.getWorkload k], none⟩
  | GetResp.found wl => cycleFound k e wl maxWaitSeconds

/-- `ScaleDeployment`, instantiating the shared cycle body at the
Deployment API. -/
def ScaleDeployment (e : SideEnv) (maxWaitSeconds : Nat) : RunOut :=
  scaleCycle Kind.deployment e maxWaitSeconds

/-- `ScaleStatefulSet`, instantiating the shared cycle body at the
StatefulSet API. -/
def ScaleStatefulSet (e : SideEnv) (maxWaitSeconds : Nat) : RunOut :=
  scaleCycle Kind.statefulset e maxWaitSeconds

/-! ## Kind resolution and dispatch (`Run`) -/

/-- The `targetKind == "unknown"` branch of `Run`: `GetDeployment`; on
IsNotFound try `GetStatefulSet`; on its IsNotFound fail with the
not-found error; other returned errors propagate; other panics
propagate. -/
def resolveKind (env : Env) : (CycleRes ⊕ Kind) × List Call :=
  match env.dep.getResp with
  | GetResp.found _ =>
    (Sum.inr Kind.deployment, [Call.getWorkload Kind.deployment])
  | GetResp.statusError m =>
    (Sum.inl (CycleRes.retErr (Err.apiError m)), [Call.getWorkload Kind.deployment])
  | GetResp.otherError m =>
    (Sum.inl (CycleRes.panicked (Err.apiError m)), [Call.getWorkload Kind.deployment])
  | GetResp.notFound =>
    match env.sts.getResp with
    | GetResp.notFound =>
      (Sum.inl (CycleRes.retErr Err.notFound),
        [Call.getWorkload Kind.deployment, Call.getWorkload Kind.statefulset])
    | GetResp.statusError m =>
      (Sum.inl (CycleRes.retErr (Err.apiError m)),
        [Call.getWorkload Kind.deployment, Call.getWorkload Kind.statefulset])
    | GetResp.otherError m =>
      (Sum.inl (CycleRes.panicked (Err.apiError m)),
        [Call.getWorkload Kind.deployment, Call.getWorkload Kind.statefulset])
    | GetResp.found _ =>
      (Sum.inr Kind.statefulset,
        [Call.getWorkload Kind.deployment, Call.getWorkload Kind.statefulset])

/-- The dispatch chain of `Run` after resolution: deployment /
statefulset / the unreachable "unknown target kind" error branch. -/
def dispatch (env : Env) (k : Kind) (maxWaitSeconds : Nat) : RunOut :=
  match k with
  | Kind.deployment => ScaleDeployment env.dep maxWaitSeconds
  | Kind.statefulset => ScaleStatefulSet env.sts maxWaitSeconds
  | Kind.unknown => ⟨CycleRes.retErr Err.unknownKind, [], none⟩

/-- `Run`: resolve the kind when it is "unknown", then dispatch. -/
def Run (env : Env) (targetKind : Kind) (maxWaitSeconds : Nat) : RunOut :=
  match targetKind with
  | Kind.unknown =>
    match resolveKind env with
    | (Sum.inl r, tr) => ⟨r, tr, none⟩
    | (Sum.inr k2, tr) =>
      match dispatch env k2 maxWaitSeconds with
      | ⟨r, tr2, d⟩ => ⟨r, tr ++ tr2, d⟩
  | k => dispatch env k maxWaitSeconds

/-- The command pipeline (`RunE`): `Complete` then `Run`.  A `Complete`
error is returned before any API call. -/
def rescale (contextOk : Bool) (maxWaitSeconds : Int) (args : List (List Char))
    (env : Env) : RunOut :=
  match Complete contextOk maxWaitSeconds args with
  | Except.error e => ⟨CycleRes.retErr e, [], none⟩
  | Except.ok t => Run env t.targetKind maxWaitSeconds.toNat

/-- The `UpdateScale` arguments occurring in a trace, in order: the
scale mutations issued. -/
def updateArgs (t : List Call) : List Int :=
  t.filterMap fun c =>
    match c with
    | Call.updateScale _ r => some r
    | _ => none

/-! ## Concrete environments used as test inputs -/

/-- A poll schedule answering every `GetScale` with the same scale and
no error. -/
def pollConst (v : Option Int) : Nat → Option Int × Option String := fun _ => (v, none)

/-- A side whose workload exists and whose API calls all succeed, with
the given poll schedules. -/
def sideNoErr (wl : Workload) (p1 p2 : Nat → Option Int × Option String) : SideEnv :=
  ⟨GetResp.found wl, none, none, none, none, p1, p2⟩

/-- A healthy workload: desired 5, observed 3; scale-down observed at
once, scale-up observed at once. -/
def sideHealthy : SideEnv := sideNoErr ⟨5, 3⟩ (pollConst (some 0)) (pollConst (some 3))

/-- A workload whose observed count is 0 while its desired count is 3
(pods pending or crashing). -/
def sideZeroObserved : SideEnv := sideNoErr ⟨3, 0⟩ (pollConst (some 0)) (pollConst (some 0))

/-- A workload stuck at one observed replica: the scale-down wait can
never converge. -/
def sideStuckAtOne : SideEnv := sideNoErr ⟨2, 2⟩ (pollConst (some 1)) (pollConst (some 2))

/-- A workload whose scale-up wait can never converge: desired 5,
observed 3 at fetch time, scale-down observed at once, scale-up stuck
observing 1. -/
def sideUpStuck : SideEnv := sideNoErr ⟨5, 3⟩ (pollConst (some 0)) (pollConst (some 1))

/-- A poll schedule whose every `GetScale` fails, returning a nil scale
together with an error. -/
def pollNil : Nat → Option Int × Option String := fun _ => (none, some "boom")

/-- A side on which the workload does not exist. -/
def sideAbsent : SideEnv :=
  ⟨GetResp.notFound, none, none, none, none, pollConst none, pollConst none⟩

/-- An environment with neither a Deployment nor a StatefulSet. -/
def envAbsent : Env := ⟨sideAbsent, sideAbsent⟩

/-- An environment with both a Deployment and a StatefulSet of the same
name. -/
def envBoth : Env := ⟨sideHealthy, sideHealthy⟩

/-! ## Lemmas about the polling loop -/

theorem WaitForReplicas_zero (poll : Nat → Option Int × Option String) (target : Int)
    (i : Nat) : WaitForReplicas poll target i 0 = (WaitRes.timeout, 0) := rfl

/-- If every consulted poll returns a live scale whose observed count
misses the target, the loop exhausts all its tries and times out. -/
theorem WaitForReplicas_timeout (poll : Nat → Option Int × Option String) (target : Int) :
    ∀ n i, (∀ j, j < n → ∃ v, (poll (i + j)).fst = some v ∧ v ≠ target) →
    WaitForReplicas poll target i n = (WaitRes.timeout, n) := by
  intro n
  induction n with
  | zero => intro i _; rfl
  | succ m ih =>
    intro i h
    obtain ⟨v, hv, hne⟩ := h 0 (Nat.succ_pos m)
    rw [Nat.add_zero] at hv
    have hrec := ih (i + 1) (fun j hj => by
      have h2 := h (j + 1) (by omega)
      have he : i + (j + 1) = i + 1 + j := by omega
      rwa [he] at h2)
    simp only [WaitForReplicas, hv, if_neg hne, hrec]

/-- If the `kk`-th poll is the first whose observed count equals the
target and `kk < n`, the loop succeeds after exactly `kk + 1` polls. -/
theorem WaitForReplicas_converge (poll : Nat → Option Int × Option String) (target : Int) :
    ∀ kk n i, kk < n → (poll (i + kk)).fst = some target →
    (∀ j, j < kk → ∃ v, (poll (i + j)).fst = some v ∧ v ≠ target) →
    WaitForReplicas poll target i n = (WaitRes.converged, kk + 1) := by
  intro kk
  induction kk with
  | zero =>
    intro n i hn hs _
    match n, hn with
    | m + 1, _ =>
      rw [Nat.add_zero] at hs
      simp [WaitForReplicas, hs]
  | succ q ih =>
    intro n i hn hs hb
    match n, hn with
    | m + 1, hn =>
      obtain ⟨v, hv, hne⟩ := hb 0 (Nat.succ_pos q)
      rw [Nat.add_zero] at hv
      have hs2 : (poll (i + 1 + q)).fst = some target := by
        have he : i + (q + 1) = i + 1 + q := by omega
        rwa [he] at hs
      have hrec := ih m (i + 1) (by omega) hs2 (fun j hj => by
        have h2 := hb (j + 1) (by omega)
        have he : i + (j + 1) = i + 1 + j := by omega
        rwa [he] at h2)
      simp only [WaitForReplicas, hv, if_neg hne, hrec]

/-- If the `kk`-th poll is the first returning a nil scale (its error
discarded) and `kk < n`, the loop panics dereferencing it after exactly
`kk + 1` polls. -/
theorem WaitForReplicas_nil (poll : Nat → Option Int × Option String) (target : Int) :
    ∀ kk n i, kk < n → (poll (i + kk)).fst = none →
    (∀ j, j < kk → ∃ v, (poll (i + j)).fst = some v ∧ v ≠ target) →
    WaitForReplicas poll target i n = (WaitRes.nilPanic, kk + 1) := by
  intro kk
  induction kk with
  | zero =>
    intro n i hn hs _
    match n, hn with
    | m + 1, _ =>
      rw [Nat.add_zero] at hs
      simp only [WaitForReplicas, hs]
  | succ q ih =>
    intro n i hn hs hb
    match n, hn with
    | m + 1, hn =>
      obtain ⟨v, hv, hne⟩ := hb 0 (Nat.succ_pos q)
      rw [Nat.add_zero] at hv
      have hs2 : (poll (i + 1 + q)).fst = none := by
        have he : i + (q + 1) = i + 1 + q := by omega
        rwa [he] at hs
      have hrec := ih m (i + 1) (by omega) hs2 (fun j hj => by
        have h2 := hb (j + 1) (by omega)
        have he : i + (j + 1) = i + 1 + j := by omega
        rwa [he] at h2)
      simp only [WaitForReplicas, hv, if_neg hne, hrec]

/-- The loop only succeeds when some consulted poll actually observed
the target count. -/
theorem WaitForReplicas_converged_means (poll : Nat → Option Int × Option String)
    (target : Int) :
    ∀ n i, (WaitForReplicas poll target i n).fst = WaitRes.converged →
    ∃ kk, kk < n ∧ (poll (i + kk)).fst = some target := by
  intro n
  induction n with
  | zero => intro i h; exact absurd h (by simp [WaitForReplicas_zero])
  | succ m ih =>
    intro i h
    match hp : (poll i).fst with
    | none => rw [show (WaitForReplicas poll target i (m + 1)) =
        (WaitRes.nilPanic, 1) by simp only [WaitForReplicas, hp]] at h; exact absurd h (by simp)
    | some v =>
      by_cases hv : v = target
      · exact ⟨0, Nat.succ_pos m, by rw [Nat.add_zero, hp, hv]⟩
      · rw [show (WaitForReplicas poll target i (m + 1)) =
          ((WaitForReplicas poll target (i + 1) m).fst,
            (WaitForReplicas poll target (i + 1) m).snd + 1) by
            simp only [WaitForReplicas, hp, if_neg hv]] at h
        obtain ⟨kk, hk, hs⟩ := ih (i + 1) h
        exact ⟨kk + 1, by omega, by rw [show i + (kk + 1) = i + 1 + kk by omega]; exact hs⟩

/-- If every poll the loop may consult returns a live scale, the loop
never hits the nil dereference. -/
theorem WaitForReplicas_no_nil (poll : Nat → Option Int × Option String) (target : Int) :
    ∀ n i, (∀ j, j < n → (poll (i + j)).fst ≠ none) →
    (WaitForReplicas poll target i n).fst ≠ WaitRes.nilPanic := by
  intro n
  induction n with
  | zero => intro i _; simp [WaitForReplicas_zero]
  | succ m ih =>
    intro i h
    match hp : (poll i).fst with
    | none => exact absurd (by rw [Nat.add_zero]; exact hp) (h 0 (Nat.succ_pos m))
    | some v =>
      by_cases hv : v = target
      · rw [show (WaitForReplicas poll target i (m + 1)) = (WaitRes.converged, 1) by
          simp only [WaitForReplicas, hp, if_pos hv]]
        simp
      · rw [show (WaitForReplicas poll target i (m + 1)) =
          ((WaitForReplicas poll target (i + 1) m).fst,
            (WaitForReplicas poll target (i + 1) m).snd + 1) by
            simp only [WaitForReplicas, hp, if_neg hv]]
        exact ih (i + 1) (fun j hj => by
          have h2 := h (j + 1) (by omega)
          have he : i + (j + 1) = i + 1 + j := by omega
          rwa [he] at h2)

/-- The loop's behaviour depends only on the scale component of each
poll response: the discarded error component is irrelevant. -/
theorem WaitForReplicas_err_ignored (poll poll' : Nat → Option Int × Option String)
    (target : Int) (h : ∀ j, (poll j).fst = (poll' j).fst) :
    ∀ n i, WaitForReplicas poll target i n = WaitForReplicas poll' target i n := by
  intro n
  induction n with
  | zero => intro i; rfl
  | succ m ih =>
    intro i
    simp only [WaitForReplicas, h i, ih (i + 1)]

/-! ## Lemmas about argument parsing -/

theorem startsWith_append_self (p s : List Char) : startsWith (p ++ s) p = true := by
  induction p with
  | nil => cases s <;> rfl
  | cons c cs ih => simp [startsWith, ih]

theorem trimPre_append_self (p s : List Char) : trimPre (p ++ s) p = s := by
  simp [trimPre, startsWith_append_self, List.drop_left]

/-- Claim C7: every `deploy/foo` or `deployment/foo` argument resolves
to kind Deployment with name `foo`; every `sts/bar` or `statefulset/bar`
argument resolves to kind StatefulSet with name `bar`; an argument with
none of the four prefixes resolves to the unknown kind with the whole
argument as the name. -/
theorem target_kind_resolution_of_argument :
    (∀ s, parseTarget (deploySlash ++ s) = ⟨s, Kind.deployment⟩) ∧
    (∀ s, parseTarget (deploymentSlash ++ s) = ⟨s, Kind.deployment⟩) ∧
    (∀ s, parseTarget (stsSlash ++ s) = ⟨s, Kind.statefulset⟩) ∧
    (∀ s, parseTarget (statefulsetSlash ++ s) = ⟨s, Kind.statefulset⟩) ∧
    (∀ s, startsWith s deploymentSlash = false → startsWith s deploySlash = false →
      startsWith s statefulsetSlash = false → startsWith s stsSlash = false →
      parseTarget s = ⟨s, Kind.unknown⟩) := by
  refine ⟨fun s => ?_, fun s => ?_, fun s => ?_, fun s => ?_, fun s h1 h2 h3 h4 => ?_⟩
  · have hm : startsWith (deploySlash ++ s) deploymentSlash = false := rfl
    simp [parseTarget, hm, startsWith_append_self, trimPre_append_self]
  · simp [parseTarget, startsWith_append_self, trimPre_append_self]
  · have hm1 : startsWith (stsSlash ++ s) deploymentSlash = false := rfl
    have hm2 : startsWith (stsSlash ++ s) deploySlash = false := rfl
    have hm3 : startsWith (stsSlash ++ s) statefulsetSlash = false := rfl
    simp [parseTarget, hm1, hm2, hm3, startsWith_append_self, trimPre_append_self]
  · have hm1 : startsWith (statefulsetSlash ++ s) deploymentSlash = false := rfl
    have hm2 : startsWith (statefulsetSlash ++ s) deploySlash = false := rfl
    simp [parseTarget, hm1, hm2, startsWith_append_self, trimPre_append_self]
  · simp [parseTarget, h1, h2, h3, h4]

/-- Witness for C7's catch-all clause at the bare name `nginx`. -/
theorem target_kind_resolution_of_argument_witness :
    parseTarget ['n','g','i','n','x'] = ⟨['n','g','i','n','x'], Kind.unknown⟩ :=
  target_kind_resolution_of_argument.2.2.2.2 ['n','g','i','n','x'] rfl rfl rfl rfl

/-! ## Characterization of the scale cycle, branch by branch -/

theorem updateArgs_append (a b : List Call) :
    updateArgs (a ++ b) = updateArgs a ++ updateArgs b := by
  simp [updateArgs, List.filterMap_append]

theorem updateArgs_pollCalls (k : Kind) (n : Nat) : updateArgs (pollCalls k n) = [] := by
  induction n with
  | zero => rfl
  | succ m ih => exact ih

theorem updateArgs_nil : updateArgs [] = [] := rfl

theorem updateArgs_cons_getWorkload (k : Kind) (l : List Call) :
    updateArgs (Call.getWorkload k :: l) = updateArgs l := rfl

theorem updateArgs_cons_getScale (k : Kind) (l : List Call) :
    updateArgs (Call.getScale k :: l) = updateArgs l := rfl

theorem updateArgs_cons_poll (k : Kind) (l : List Call) :
    updateArgs (Call.pollGetScale k :: l) = updateArgs l := rfl

theorem updateArgs_cons_update (k : Kind) (r : Int) (l : List Call) :
    updateArgs (Call.updateScale k r :: l) = r :: updateArgs l := rfl

theorem scaleCycle_notFound (k : Kind) (e : SideEnv) (w : Nat)
    (hg : e.getResp = GetResp.notFound) :
    scaleCycle k e w = ⟨CycleRes.retErr Err.notFound, [Call.getWorkload k], none⟩ := by
  simp [scaleCycle, hg]

theorem scaleCycle_statusError (k : Kind) (e : SideEnv) (w : Nat) (m : String)
    (hg : e.getResp = GetResp.statusError m) :
    scaleCycle k e w = ⟨CycleRes.retErr (Err.apiError m), [Call.getWorkload k], none⟩ := by
  simp [scaleCycle, hg]

theorem scaleCycle_otherError (k : Kind) (e : SideEnv) (w : Nat) (m : String)
    (hg : e.getResp = GetResp.otherError m) :
    scaleCycle k e w = ⟨CycleRes.panicked (Err.apiError m), [Call.getWorkload k], none⟩ := by
  simp [scaleCycle, hg]

theorem scaleCycle_found (k : Kind) (e : SideEnv) (w : Nat) (wl : Workload)
    (hg : e.getResp = GetResp.found wl) :
    scaleCycle k e w = cycleFound k e wl w := by
  simp [scaleCycle, hg]

theorem cycleFound_upd1GetErr (k : Kind) (e : SideEnv) (wl : Workload) (w : Nat) (m : String)
    (h : e.upd1GetErr = some m) :
    cycleFound k e wl w = ⟨CycleRes.panicked (Err.apiError m),
      [Call.getWorkload k, Call.getScale k], some wl.specReplicas⟩ := by
  simp [cycleFound, UpdateWorkloadScale, h]

theorem cycleFound_upd1PutErr (k : Kind) (e : SideEnv) (wl : Workload) (w : Nat) (m : String)
    (h1 : e.upd1GetErr = none) (h : e.upd1PutErr = some m) :
    cycleFound k e wl w = ⟨CycleRes.panicked (Err.apiError m),
      [Call.getWorkload k, Call.getScale k, Call.updateScale k 0], some wl.specReplicas⟩ := by
  simp [cycleFound, UpdateWorkloadScale, h1, h]

theorem cycleFound_wait1_nil (k : Kind) (e : SideEnv) (wl : Workload) (w p1 : Nat)
    (h1 : e.upd1GetErr = none) (h1p : e.upd1PutErr = none)
    (hw : WaitForReplicas e.poll1 0 0 w = (WaitRes.nilPanic, p1)) :
    cycleFound k e wl w = ⟨CycleRes.panicked Err.nilDeref,
      [Call.getWorkload k, Call.getScale k, Call.updateScale k 0] ++ pollCalls k p1,
      some 0⟩ := by
  simp [cycleFound, UpdateWorkloadScale, h1, h1p, hw]

theorem cycleFound_wait1_timeout (k : Kind) (e : SideEnv) (wl : Workload) (w p1 : Nat)
    (h1 : e.upd1GetErr = none) (h1p : e.upd1PutErr = none)
    (hw : WaitForReplicas e.poll1 0 0 w = (WaitRes.timeout, p1)) :
    cycleFound k e wl w = ⟨CycleRes.panicked (Err.waitTimeout 0),
      [Call.getWorkload k, Call.getScale k, Call.updateScale k 0] ++ pollCalls k p1,
      some 0⟩ := by
  simp [cycleFound, UpdateWorkloadScale, h1, h1p, hw]

theorem cycleFound_upd2GetErr (k : Kind) (e : SideEnv) (wl : Workload) (w p1 : Nat) (m : String)
    (h1 : e.upd1GetErr = none) (h1p : e.upd1PutErr = none)
    (hw : WaitForReplicas e.poll1 0 0 w = (WaitRes.converged, p1))
    (h2 : e.upd2GetErr = some m) :
    cycleFound k e wl w = ⟨CycleRes.panicked (Err.apiError m),
      [Call.getWorkload k, Call.getScale k, Call.updateScale k 0] ++ pollCalls k p1 ++
        [Call.getScale k], some 0⟩ := by
  simp [cycleFound, UpdateWorkloadScale, h1, h1p, hw, h2]

theorem cycleFound_upd2PutErr (k : Kind) (e : SideEnv) (wl : Workload) (w p1 : Nat) (m : String)
    (h1 : e.upd1GetErr = none) (h1p : e.upd1PutErr = none)
    (hw : WaitForReplicas e.poll1 0 0 w = (WaitRes.converged, p1))
    (h2 : e.upd2GetErr = none) (h2p : e.upd2PutErr = some m) :
    cycleFound k e wl w = ⟨CycleRes.panicked (Err.apiError m),
      [Call.getWorkload k, Call.getScale k, Call.updateScale k 0] ++ pollCalls k p1 ++
        [Call.getScale k, Call.updateScale k wl.statusReplicas], some 0⟩ := by
  simp [cycleFound, UpdateWorkloadScale, h1, h1p, hw, h2, h2p]

theorem cycleFound_wait2_nil (k : Kind) (e : SideEnv) (wl : Workload) (w p1 p2 : Nat)
    (h1 : e.upd1GetErr = none) (h1p : e.upd1PutErr = none)
    (hw : WaitForReplicas e.poll1 0 0 w = (WaitRes.converged, p1))
    (h2 : e.upd2GetErr = none) (h2p : e.upd2PutErr = none)
    (hw2 : WaitForReplicas e.poll2 wl.statusReplicas 0 60 = (WaitRes.nilPanic, p2)) :
    cycleFound k e wl w = ⟨CycleRes.panicked Err.nilDeref,
      [Call.getWorkload k, Call.getScale k, Call.updateScale k 0] ++ pollCalls k p1 ++
        [Call.getScale k, Call.updateScale k wl.statusReplicas] ++ pollCalls k p2,
      some wl.statusReplicas⟩ := by
  simp [cycleFound, UpdateWorkloadScale, h1, h1p, hw, h2, h2p, hw2]

theorem cycleFound_wait2_timeout (k : Kind) (e : SideEnv) (wl : Workload) (w p1 p2 : Nat)
    (h1 : e.upd1GetErr = none) (h1p : e.upd1PutErr = none)
    (hw : WaitForReplicas e.poll1 0 0 w = (WaitRes.converged, p1))
    (h2 : e.upd2GetErr = none) (h2p : e.upd2PutErr = none)
    (hw2 : WaitForReplicas e.poll2 wl.statusReplicas 0 60 = (WaitRes.timeout, p2)) :
    cycleFound k e wl w = ⟨CycleRes.panicked (Err.waitTimeout wl.statusReplicas),
      [Call.getWorkload k, Call.getScale k, Call.updateScale k 0] ++ pollCalls k p1 ++
        [Call.getScale k, Call.updateScale k wl.statusReplicas] ++ pollCalls k p2,
      some wl.statusReplicas⟩ := by
  simp [cycleFound, UpdateWorkloadScale, h1, h1p, hw, h2, h2p, hw2]

theorem cycleFound_wait2_converged (k : Kind) (e : SideEnv) (wl : Workload) (w p1 p2 : Nat)
    (h1 : e.upd1GetErr = none) (h1p : e.upd1PutErr = none)
    (hw : WaitForReplicas e.poll1 0 0 w = (WaitRes.converged, p1))
    (h2 : e.upd2GetErr = none) (h2p : e.upd2PutErr = none)
    (hw2 : WaitForReplicas e.poll2 wl.statusReplicas 0 60 = (WaitRes.converged, p2)) :
    cycleFound k e wl w = ⟨CycleRes.ok,
      [Call.getWorkload k, Call.getScale k, Call.updateScale k 0] ++ pollCalls k p1 ++
        [Call.getScale k, Call.updateScale k wl.statusReplicas] ++ pollCalls k p2,
      some wl.statusReplicas⟩ := by
  simp [cycleFound, UpdateWorkloadScale, h1, h1p, hw, h2, h2p, hw2]

/-! ## Claim theorems -/

/-- Claim C1, amended.  For every request the scale cycle
(`ScaleDeployment` / `ScaleStatefulSet`, both instances of `scaleCycle`)
reports success only having observed, on some poll of its final wait,
a replica count equal to `originalReplicas` — leaving the desired count
at `originalReplicas`; every error it returns to its caller comes from
the initial fetch (NotFound or an ApiError).  Post-mutation failures
abort the process (panic) instead of being returned, and when
`originalReplicas` is 0 the cycle can report success with the workload
still scaled to 0. -/
theorem cycle_success_observes_original (k : Kind) (e : SideEnv) (w : Nat) :
    ((scaleCycle k e w).res = CycleRes.ok →
      ∃ wl, e.getResp = GetResp.found wl ∧
        (scaleCycle k e w).finalDesired = some wl.statusReplicas ∧
        ∃ i, i < 60 ∧ (e.poll2 i).fst = some wl.statusReplicas) ∧
    (∀ er, (scaleCycle k e w).res = CycleRes.retErr er →
      er = Err.notFound ∨ ∃ m, er = Err.apiError m) := by
  cases hg : e.getResp with
  | notFound =>
    rw [scaleCycle_notFound k e w hg]
    refine ⟨fun h => ?_, fun er her => ?_⟩
    · simp at h
    · injection her with h2
      exact Or.inl h2.symm
  | statusError m =>
    rw [scaleCycle_statusError k e w m hg]
    refine ⟨fun h => ?_, fun er her => ?_⟩
    · simp at h
    · injection her with h2
      exact Or.inr ⟨m, h2.symm⟩
  | otherError m =>
    rw [scaleCycle_otherError k e w m hg]
    exact ⟨fun h => by simp at h, fun er her => by simp at her⟩
  | found wl =>
    rw [scaleCycle_found k e w wl hg]
    cases h1 : e.upd1GetErr with
    | some m =>
      rw [cycleFound_upd1GetErr k e wl w m h1]
      exact ⟨fun h => by simp at h, fun er her => by simp at her⟩
    | none =>
      cases h1p : e.upd1PutErr with
      | some m =>
        rw [cycleFound_upd1PutErr k e wl w m h1 h1p]
        exact ⟨fun h => by simp at h, fun er her => by simp at her⟩
      | none =>
        rcases hw1 : WaitForReplicas e.poll1 0 0 w with ⟨r1, p1⟩
        cases r1 with
        | nilPanic =>
          rw [cycleFound_wait1_nil k e wl w p1 h1 h1p hw1]
          exact ⟨fun h => by simp at h, fun er her => by simp at her⟩
        | timeout =>
          rw [cycleFound_wait1_timeout k e wl w p1 h1 h1p hw1]
          exact ⟨fun h => by simp at h, fun er her => by simp at her⟩
        | converged =>
          cases h2 : e.upd2GetErr with
          | some m =>
            rw [cycleFound_upd2GetErr k e wl w p1 m h1 h1p hw1 h2]
            exact ⟨fun h => by simp at h, fun er her => by simp at her⟩
          | none =>
            cases h2p : e.upd2PutErr with
            | some m =>
              rw [cycleFound_upd2PutErr k e wl w p1 m h1 h1p hw1 h2 h2p]
              exact ⟨fun h => by simp at h, fun er her => by simp at her⟩
            | none =>
              rcases hw2 : WaitForReplicas e.poll2 wl.statusReplicas 0 60 with ⟨r2, p2⟩
              cases r2 with
              | nilPanic =>
                rw [cycleFound_wait2_nil k e wl w p1 p2 h1 h1p hw1 h2 h2p hw2]
                exact ⟨fun h => by simp at h, fun er her => by simp at her⟩
              | timeout =>
                rw [cycleFound_wait2_timeout k e wl w p1 p2 h1 h1p hw1 h2 h2p hw2]
                exact ⟨fun h => by simp at h, fun er her => by simp at her⟩
              | converged =>
                rw [cycleFound_wait2_converged k e wl w p1 p2 h1 h1p hw1 h2 h2p hw2]
                refine ⟨fun _ => ⟨wl, rfl, rfl, ?_⟩, fun er her => by simp at her⟩
                obtain ⟨kk, hk, hs⟩ :=
                  WaitForReplicas_converged_means e.poll2 wl.statusReplicas 60 0 (by rw [hw2])
                exact ⟨kk, hk, by simpa using hs⟩

/-- Witness for C1 (amended) on a healthy workload with observed count 3. -/
theorem cycle_success_observes_original_witness :
    ∃ wl, sideHealthy.getResp = GetResp.found wl ∧
      (scaleCycle Kind.deployment sideHealthy 5).finalDesired = some wl.statusReplicas ∧
      ∃ i, i < 60 ∧ (sideHealthy.poll2 i).fst = some wl.statusReplicas :=
  (cycle_success_observes_original Kind.deployment sideHealthy 5).1 rfl

/-- Counterexample to claim C1 as stated: on a Deployment whose observed
count is 0 at the start (desired 3, `sideZeroObserved`), the cycle
reports success while the workload's desired count is left at 0 — both
scale updates set it to 0; and on a stuck scale-down
(`sideStuckAtOne`), the cycle panics with the WaitTimeout instead of
returning it to its caller. -/
theorem cycle_reports_success_scaled_to_zero :
    (ScaleDeployment sideZeroObserved 5).res = CycleRes.ok ∧
    (ScaleDeployment sideZeroObserved 5).finalDesired = some 0 ∧
    updateArgs (ScaleDeployment sideZeroObserved 5).trace = [0, 0] ∧
    (ScaleStatefulSet sideStuckAtOne 2).res = CycleRes.panicked (Err.waitTimeout 0) ∧
    (ScaleStatefulSet sideStuckAtOne 2).res ≠ CycleRes.retErr (Err.waitTimeout 0) :=
  ⟨rfl, rfl, rfl, rfl, by decide⟩

/-- Claim C3, amended.  If the observed count never reaches 0 within the
`maxWaitSeconds` polling attempts, the cycle aborts (panics) with
`WaitTimeout(targetReplicas = 0)` — it does not return the error to its
caller — and never issues the scale-up update: the only scale mutation
issued is the one to 0. -/
theorem scale_down_timeout_aborts_before_scale_up (k : Kind) (e : SideEnv) (wl : Workload)
    (w : Nat) (hg : e.getResp = GetResp.found wl)
    (h1 : e.upd1GetErr = none) (h1p : e.upd1PutErr = none)
    (hmiss : ∀ i, i < w → ∃ v, (e.poll1 i).fst = some v ∧ v ≠ 0) :
    (scaleCycle k e w).res = CycleRes.panicked (Err.waitTimeout 0) ∧
    updateArgs (scaleCycle k e w).trace = [0] := by
  have hw : WaitForReplicas e.poll1 0 0 w = (WaitRes.timeout, w) :=
    WaitForReplicas_timeout e.poll1 0 w 0 (by simpa using hmiss)
  rw [scaleCycle_found k e w wl hg, cycleFound_wait1_timeout k e wl w w h1 h1p hw]
  exact ⟨rfl, by simp [updateArgs_append, updateArgs_pollCalls, updateArgs_nil, updateArgs_cons_getWorkload, updateArgs_cons_getScale, updateArgs_cons_poll, updateArgs_cons_update]⟩

/-- Witness for C3 (amended) on a StatefulSet stuck at one observed
replica with a budget of 3 attempts. -/
theorem scale_down_timeout_aborts_before_scale_up_witness :
    (scaleCycle Kind.statefulset sideStuckAtOne 3).res =
      CycleRes.panicked (Err.waitTimeout 0) ∧
    updateArgs (scaleCycle Kind.statefulset sideStuckAtOne 3).trace = [0] :=
  scale_down_timeout_aborts_before_scale_up Kind.statefulset sideStuckAtOne ⟨2, 2⟩ 3
    rfl rfl rfl (fun i _ => ⟨1, rfl, by decide⟩)

/-- Counterexample to claim C3 as stated: with the observed count stuck
at 1 and `maxWaitSeconds = 2`, the cycle's outcome is a panic carrying
`WaitTimeout(0)`, not a `WaitTimeout` returned to the caller — though
it indeed never issues the scale-up update. -/
theorem scale_down_timeout_panics_not_returns :
    (ScaleDeployment sideStuckAtOne 2).res = CycleRes.panicked (Err.waitTimeout 0) ∧
    (ScaleDeployment sideStuckAtOne 2).res ≠ CycleRes.retErr (Err.waitTimeout 0) ∧
    updateArgs (ScaleDeployment sideStuckAtOne 2).trace = [0] :=
  ⟨rfl, by decide, rfl⟩

/-- Claim C5: `originalReplicas` is recorded from the status (observed)
field of the fetched workload, not its spec (desired) field, and that
recorded value is the target of the scale-up update: the scale mutations
a cycle issues are always a prefix of `[0, wl.statusReplicas]`, and on
reported success exactly that list. -/
theorem original_replicas_from_status_field (k : Kind) (e : SideEnv) (w : Nat) (wl : Workload)
    (hg : e.getResp = GetResp.found wl) :
    (updateArgs (scaleCycle k e w).trace = [] ∨
     updateArgs (scaleCycle k e w).trace = [0] ∨
     updateArgs (scaleCycle k e w).trace = [0, wl.statusReplicas]) ∧
    ((scaleCycle k e w).res = CycleRes.ok →
      updateArgs (scaleCycle k e w).trace = [0, wl.statusReplicas]) := by
  rw [scaleCycle_found k e w wl hg]
  cases h1 : e.upd1GetErr with
  | some m =>
    rw [cycleFound_upd1GetErr k e wl w m h1]
    exact ⟨Or.inl rfl, fun h => by simp at h⟩
  | none =>
    cases h1p : e.upd1PutErr with
    | some m =>
      rw [cycleFound_upd1PutErr k e wl w m h1 h1p]
      exact ⟨Or.inr (Or.inl rfl), fun h => by simp at h⟩
    | none =>
      rcases hw1 : WaitForReplicas e.poll1 0 0 w with ⟨r1, p1⟩
      cases r1 with
      | nilPanic =>
        rw [cycleFound_wait1_nil k e wl w p1 h1 h1p hw1]
        refine ⟨Or.inr (Or.inl ?_), fun h => by simp at h⟩
        simp [updateArgs_append, updateArgs_pollCalls, updateArgs_nil, updateArgs_cons_getWorkload, updateArgs_cons_getScale, updateArgs_cons_poll, updateArgs_cons_update]
      | timeout =>
        rw [cycleFound_wait1_timeout k e wl w p1 h1 h1p hw1]
        refine ⟨Or.inr (Or.inl ?_), fun h => by simp at h⟩
        simp [updateArgs_append, updateArgs_pollCalls, updateArgs_nil, updateArgs_cons_getWorkload, updateArgs_cons_getScale, updateArgs_cons_poll, updateArgs_cons_update]
      | converged =>
        cases h2 : e.upd2GetErr with
        | some m =>
          rw [cycleFound_upd2GetErr k e wl w p1 m h1 h1p hw1 h2]
          refine ⟨Or.inr (Or.inl ?_), fun h => by simp at h⟩
          simp [updateArgs_append, updateArgs_pollCalls, updateArgs_nil, updateArgs_cons_getWorkload, updateArgs_cons_getScale, updateArgs_cons_poll, updateArgs_cons_update]
        | none =>
          cases h2p : e.upd2PutErr with
          | some m =>
            rw [cycleFound_upd2PutErr k e wl w p1 m h1 h1p hw1 h2 h2p]
            refine ⟨Or.inr (Or.inr ?_), fun h => by simp at h⟩
            simp [updateArgs_append, updateArgs_pollCalls, updateArgs_nil, updateArgs_cons_getWorkload, updateArgs_cons_getScale, updateArgs_cons_poll, updateArgs_cons_update]
          | none =>
            rcases hw2 : WaitForReplicas e.poll2 wl.statusReplicas 0 60 with ⟨r2, p2⟩
            cases r2 with
            | nilPanic =>
              rw [cycleFound_wait2_nil k e wl w p1 p2 h1 h1p hw1 h2 h2p hw2]
              refine ⟨Or.inr (Or.inr ?_), fun h => by simp at h⟩
              simp [updateArgs_append, updateArgs_pollCalls, updateArgs_nil, updateArgs_cons_getWorkload, updateArgs_cons_getScale, updateArgs_cons_poll, updateArgs_cons_update]
            | timeout =>
              rw [cycleFound_wait2_timeout k e wl w p1 p2 h1 h1p hw1 h2 h2p hw2]
              refine ⟨Or.inr (Or.inr ?_), fun h => by simp at h⟩
              simp [updateArgs_append, updateArgs_pollCalls, updateArgs_nil, updateArgs_cons_getWorkload, updateArgs_cons_getScale, updateArgs_cons_poll, updateArgs_cons_update]
            | converged =>
              rw [cycleFound_wait2_converged k e wl w p1 p2 h1 h1p hw1 h2 h2p hw2]
              refine ⟨Or.inr (Or.inr ?_), fun _ => ?_⟩ <;>
                simp [updateArgs_append, updateArgs_pollCalls, updateArgs_nil, updateArgs_cons_getWorkload, updateArgs_cons_getScale, updateArgs_cons_poll, updateArgs_cons_update]

/-- Witness for C5 on a workload with desired 5 and observed 3: the
mutations issued are scale-to-0 then scale-to-3 (the status value, not
the spec value 5). -/
theorem original_replicas_from_status_field_witness :
    updateArgs (scaleCycle Kind.deployment sideHealthy 7).trace = [0, 3] :=
  (original_replicas_from_status_field Kind.deployment sideHealthy 7 ⟨5, 3⟩ rfl).2 rfl

/-- Claim C6: the scale-up wait polls with a fixed cap of exactly 60
attempts whatever `maxWaitSeconds` the caller supplied (the conclusion
holds for every `w ≥ 1` and does not mention `w`): it succeeds as soon
as a poll observes `originalReplicas` — after `j + 1` polls when the
first hit is at attempt `j` — and when all 60 attempts miss it panics
with `WaitTimeout(targetReplicas = originalReplicas)` after exactly 60
polls. -/
theorem scale_up_wait_fixed_sixty_tries (k : Kind) (e : SideEnv) (wl : Workload) (w : Nat)
    (hg : e.getResp = GetResp.found wl)
    (h1 : e.upd1GetErr = none) (h1p : e.upd1PutErr = none)
    (h2 : e.upd2GetErr = none) (h2p : e.upd2PutErr = none)
    (hp1 : (e.poll1 0).fst = some 0) (hw : 1 ≤ w) :
    ((∀ i, i < 60 → ∃ v, (e.poll2 i).fst = some v ∧ v ≠ wl.statusReplicas) →
      scaleCycle k e w = ⟨CycleRes.panicked (Err.waitTimeout wl.statusReplicas),
        [Call.getWorkload k, Call.getScale k, Call.updateScale k 0, Call.pollGetScale k,
          Call.getScale k, Call.updateScale k wl.statusReplicas] ++ pollCalls k 60,
        some wl.statusReplicas⟩) ∧
    (∀ j, j < 60 → (e.poll2 j).fst = some wl.statusReplicas →
      (∀ i, i < j → ∃ v, (e.poll2 i).fst = some v ∧ v ≠ wl.statusReplicas) →
      scaleCycle k e w = ⟨CycleRes.ok,
        [Call.getWorkload k, Call.getScale k, Call.updateScale k 0, Call.pollGetScale k,
          Call.getScale k, Call.updateScale k wl.statusReplicas] ++ pollCalls k (j + 1),
        some wl.statusReplicas⟩) := by
  have hw1 : WaitForReplicas e.poll1 0 0 w = (WaitRes.converged, 1) :=
    WaitForReplicas_converge e.poll1 0 0 w 0 hw (by simpa using hp1)
      (fun j hj => absurd hj (Nat.not_lt_zero j))
  constructor
  · intro hall
    have hw2 : WaitForReplicas e.poll2 wl.statusReplicas 0 60 = (WaitRes.timeout, 60) :=
      WaitForReplicas_timeout e.poll2 wl.statusReplicas 60 0 (by simpa using hall)
    rw [scaleCycle_found k e w wl hg,
      cycleFound_wait2_timeout k e wl w 1 60 h1 h1p hw1 h2 h2p hw2]
    simp [pollCalls]
  · intro j hj hsj hbefore
    have hw2 : WaitForReplicas e.poll2 wl.statusReplicas 0 60 = (WaitRes.converged, j + 1) :=
      WaitForReplicas_converge e.poll2 wl.statusReplicas j 60 0 hj (by simpa using hsj)
        (by simpa using hbefore)
    rw [scaleCycle_found k e w wl hg,
      cycleFound_wait2_converged k e wl w 1 (j + 1) h1 h1p hw1 h2 h2p hw2]
    simp [pollCalls]

/-- Witness for C6 on a workload with observed count 3 whose scale-up
wait observes 1 forever: the cycle panics with `WaitTimeout(3)` after
exactly 60 scale-up polls, with a caller budget of 7. -/
theorem scale_up_wait_fixed_sixty_tries_witness :
    scaleCycle Kind.deployment sideUpStuck 7 =
      ⟨CycleRes.panicked (Err.waitTimeout 3),
        [Call.getWorkload Kind.deployment, Call.getScale Kind.deployment,
          Call.updateScale Kind.deployment 0, Call.pollGetScale Kind.deployment,
          Call.getScale Kind.deployment, Call.updateScale Kind.deployment 3] ++
          pollCalls Kind.deployment 60,
        some 3⟩ :=
  (scale_up_wait_fixed_sixty_tries Kind.deployment sideUpStuck ⟨5, 3⟩ 7
    rfl rfl rfl rfl rfl rfl (by omega)).1 (fun i _ => ⟨1, rfl, by decide⟩)

/-- Claim C10: with observed count 0 at the start of the cycle (while
the desired count may be positive), the cycle sets the desired count to
0, both waits succeed immediately (one poll each), the scale-up update
sets the desired count back to 0, and the cycle reports success —
leaving the workload's desired replicas at 0. -/
theorem zero_observed_start_scales_to_zero_permanently (k : Kind) (e : SideEnv)
    (wl : Workload) (w : Nat)
    (hg : e.getResp = GetResp.found wl) (hst : wl.statusReplicas = 0)
    (h1 : e.upd1GetErr = none) (h1p : e.upd1PutErr = none)
    (h2 : e.upd2GetErr = none) (h2p : e.upd2PutErr = none)
    (hp1 : (e.poll1 0).fst = some 0) (hp2 : (e.poll2 0).fst = some 0) (hw : 1 ≤ w) :
    scaleCycle k e w = ⟨CycleRes.ok,
      [Call.getWorkload k, Call.getScale k, Call.updateScale k 0, Call.pollGetScale k,
        Call.getScale k, Call.updateScale k 0, Call.pollGetScale k],
      some 0⟩ := by
  have hw1 : WaitForReplicas e.poll1 0 0 w = (WaitRes.converged, 1) :=
    WaitForReplicas_converge e.poll1 0 0 w 0 hw (by simpa using hp1)
      (fun j hj => absurd hj (Nat.not_lt_zero j))
  have hw2 : WaitForReplicas e.poll2 wl.statusReplicas 0 60 = (WaitRes.converged, 1) := by
    rw [hst]
    exact WaitForReplicas_converge e.poll2 0 0 60 0 (by omega) (by simpa using hp2)
      (fun j hj => absurd hj (Nat.not_lt_zero j))
  rw [scaleCycle_found k e w wl hg,
    cycleFound_wait2_converged k e wl w 1 1 h1 h1p hw1 h2 h2p hw2, hst]
  simp [pollCalls]

/-- Witness for C10 on a Deployment with desired count 3 and observed
count 0: success is reported and the desired count ends at 0. -/
theorem zero_observed_start_scales_to_zero_permanently_witness :
    scaleCycle Kind.deployment sideZeroObserved 5 = ⟨CycleRes.ok,
      [Call.getWorkload Kind.deployment, Call.getScale Kind.deployment,
        Call.updateScale Kind.deployment 0, Call.pollGetScale Kind.deployment,
        Call.getScale Kind.deployment, Call.updateScale Kind.deployment 0,
        Call.pollGetScale Kind.deployment],
      some 0⟩ :=
  zero_observed_start_scales_to_zero_permanently Kind.deployment sideZeroObserved ⟨3, 0⟩ 5
    rfl rfl rfl rfl rfl rfl rfl rfl (by omega)

/-- Claim C9: in the polling loop the error result of each `GetScale`
is discarded — the loop's behaviour depends only on the scale component
of each response, so a failed fetch is never a distinct outcome or an
ApiError — and the returned scale is dereferenced unconditionally: a
nil scale makes the loop panic, and the loop avoids that panic exactly
under the precondition that every `GetScale` it may consult succeeds. -/
theorem poll_loop_discards_get_scale_errors
    (poll poll' : Nat → Option Int × Option String) (target : Int) (n : Nat) :
    ((∀ j, (poll j).fst = (poll' j).fst) →
      WaitForReplicas poll target 0 n = WaitForReplicas poll' target 0 n) ∧
    (∀ kk, kk < n → (poll kk).fst = none →
      (∀ j, j < kk → ∃ v, (poll j).fst = some v ∧ v ≠ target) →
      WaitForReplicas poll target 0 n = (WaitRes.nilPanic, kk + 1)) ∧
    ((∀ j, j < n → (poll j).fst ≠ none) →
      (WaitForReplicas poll target 0 n).fst ≠ WaitRes.nilPanic) := by
  refine ⟨fun h => WaitForReplicas_err_ignored poll poll' target h n 0,
    fun kk hk hnil hb => ?_, fun h => WaitForReplicas_no_nil poll target n 0 (by simpa using h)⟩
  exact WaitForReplicas_nil poll target kk n 0 hk (by simpa using hnil) (by simpa using hb)

/-- Witness for C9: a schedule whose first `GetScale` fails (nil scale
plus an error) makes the loop panic on the first poll. -/
theorem poll_loop_discards_get_scale_errors_witness :
    WaitForReplicas pollNil 0 0 3 = (WaitRes.nilPanic, 1) :=
  (poll_loop_discards_get_scale_errors pollNil pollNil 0 3).2.1 0 (by omega) rfl
    (fun j hj => absurd hj (Nat.not_lt_zero j))

/-- Claim C2: with a bare name (kind "unknown"), the Deployment lookup
is attempted first (the resolution trace starts with it); when it finds
a Deployment that kind is chosen with no StatefulSet lookup — even when
a StatefulSet of the same name also exists, since the choice ignores the
StatefulSet side entirely — and the StatefulSet lookup is attempted
exactly when the Deployment lookup returns not-found. -/
theorem kind_resolution_deployment_first (env : Env) :
    (∀ wl, env.dep.getResp = GetResp.found wl →
      resolveKind env = (Sum.inr Kind.deployment, [Call.getWorkload Kind.deployment])) ∧
    (Call.getWorkload Kind.statefulset ∈ (resolveKind env).snd ↔
      env.dep.getResp = GetResp.notFound) ∧
    (resolveKind env).snd.head? = some (Call.getWorkload Kind.deployment) := by
  refine ⟨fun wl hg => by simp [resolveKind, hg], ?_, ?_⟩
  · cases hg : env.dep.getResp <;> cases hs : env.sts.getResp <;>
      simp [resolveKind, hg, hs]
  · cases hg : env.dep.getResp <;> cases hs : env.sts.getResp <;>
      simp [resolveKind, hg, hs]

/-- Witness for C2 on an environment where a Deployment and a
StatefulSet with the same name both exist. -/
theorem kind_resolution_deployment_first_witness :
    resolveKind envBoth = (Sum.inr Kind.deployment, [Call.getWorkload Kind.deployment]) :=
  (kind_resolution_deployment_first envBoth).1 ⟨5, 3⟩ rfl

/-- Claim C8: a bare name for which neither a Deployment nor a
StatefulSet exists fails with the NotFound error after the two lookups,
and no scale mutation is performed (the trace holds no UpdateScale). -/
theorem bare_name_neither_kind_not_found (env : Env) (w : Nat)
    (hd : env.dep.getResp = GetResp.notFound) (hs : env.sts.getResp = GetResp.notFound) :
    Run env Kind.unknown w = ⟨CycleRes.retErr Err.notFound,
      [Call.getWorkload Kind.deployment, Call.getWorkload Kind.statefulset], none⟩ ∧
    updateArgs (Run env Kind.unknown w).trace = [] := by
  have hres : Run env Kind.unknown w = ⟨CycleRes.retErr Err.notFound,
      [Call.getWorkload Kind.deployment, Call.getWorkload Kind.statefulset], none⟩ := by
    simp [Run, resolveKind, hd, hs]
  exact ⟨hres, by rw [hres]; rfl⟩

/-- Witness for C8: the empty cluster. -/
theorem bare_name_neither_kind_not_found_witness :
    Run envAbsent Kind.unknown 3 = ⟨CycleRes.retErr Err.notFound,
      [Call.getWorkload Kind.deployment, Call.getWorkload Kind.statefulset], none⟩ :=
  (bare_name_neither_kind_not_found envAbsent 3 rfl rfl).1

/-- Claim C4: a request with `maxWaitSeconds ≤ 0` is rejected in
`Complete`, before any call to the Workload Control API: the pipeline's
call trace is empty and an error is returned — the max-wait validation
error whenever the (out-of-scope) context check passes. -/
theorem nonpositive_max_wait_rejected_before_api (contextOk : Bool) (w : Int)
    (args : List (List Char)) (env : Env) (hw : w ≤ 0) :
    (rescale contextOk w args env).trace = [] ∧
    (∃ er, (rescale contextOk w args env).res = CycleRes.retErr er) ∧
    (contextOk = true →
      (rescale contextOk w args env).res = CycleRes.retErr Err.invalidMaxWait) := by
  cases contextOk with
  | false =>
    exact ⟨rfl, ⟨Err.noContext, rfl⟩, fun h => by simp at h⟩
  | true =>
    have hc : Complete true w args = Except.error Err.invalidMaxWait := by
      simp [Complete, hw]
    refine ⟨?_, ⟨Err.invalidMaxWait, ?_⟩, fun _ => ?_⟩ <;> simp [rescale, hc]

/-- Witness for C4 at `maxWaitSeconds = 0`. -/
theorem nonpositive_max_wait_rejected_before_api_witness :
    (rescale true 0 [['x']] envAbsent).trace = [] ∧
    (rescale true 0 [['x']] envAbsent).res = CycleRes.retErr Err.invalidMaxWait := by
  have h := nonpositive_max_wait_rejected_before_api true 0 [['x']] envAbsent (by decide)
  exact ⟨h.1, h.2.2 rfl⟩

end KubectlRescale
